import Mathlib

/-!
# Verification of the `result` Python library

Shallow embedding of `src/result/result.py`: the two-variant `Ok`/`Err`
container, its equality, hashing, representation, unwrap contracts, the
slots-based attribute model, the class-pattern matching protocol, and the
`as_result` / `as_async_result` exception-adapting decorator factories.

Python payload values are modelled by the inductive `PyVal`; Python's `==`
by `pyEq`; Python's `hash` by `pyHash`, which reproduces CPython's integer
and tuple hashing exactly (string hashing is seed-randomised in CPython, so
it is a parameter). Exceptions are modelled by a class tag plus an identity
number, since exception instances compare by identity.
-/

set_option maxRecDepth 4000

/-- The Python classes the library touches: the exception hierarchy used by
selector validation and `except`-clause matching, plus a few non-exception
classes used as "unrelated type" and invalid-selector examples. -/
inductive PyClass where
  | object
  | BaseException
  | Exception
  | ValueError
  | LookupError
  | IndexError
  | TypeError
  | SystemExit
  | KeyboardInterrupt
  | intClass
  | strClass
  deriving DecidableEq, Repr

/-- The method-resolution order (ancestor list, the class itself first) of
each modelled class, as CPython defines it for these builtins. -/
def PyClass.mro : PyClass → List PyClass
  | .object => [.object]
  | .BaseException => [.BaseException, .object]
  | .Exception => [.Exception, .BaseException, .object]
  | .ValueError => [.ValueError, .Exception, .BaseException, .object]
  | .LookupError => [.LookupError, .Exception, .BaseException, .object]
  | .IndexError => [.IndexError, .LookupError, .Exception, .BaseException, .object]
  | .TypeError => [.TypeError, .Exception, .BaseException, .object]
  | .SystemExit => [.SystemExit, .BaseException, .object]
  | .KeyboardInterrupt => [.KeyboardInterrupt, .BaseException, .object]
  | .intClass => [.intClass, .object]
  | .strClass => [.strClass, .object]

/-- `issubclass(c, d)` for the modelled classes. -/
def pyIssubclass (c d : PyClass) : Bool := d ∈ c.mro

/-- An exception instance: its runtime class and an identity number (two
instances with different numbers are distinct objects; exceptions compare
and hash by identity in Python since they define no `__eq__`). -/
structure Exc where
  ty : PyClass
  id : Nat
  deriving DecidableEq, Repr

/-- The universe of Python payload values the claims need: `None`, bools,
ints, strings, exception instances, and the library's own `Ok`/`Err`
containers (`Ok`/`Err` live inside the universe so containers can nest and
so `__eq__`'s `isinstance` checks against arbitrary values are expressible).
`ok v` embeds an instance `Ok(v)`, `err v` an instance `Err(v)`. -/
inductive PyVal where
  | none
  | bool (b : Bool)
  | int (n : Int)
  | str (s : String)
  | exc (e : Exc)
  | ok (v : PyVal)
  | err (v : PyVal)
  deriving DecidableEq, Repr

/-- Python `==` on the modelled universe. For `ok`/`err` this is exactly
`Ok.__eq__` / `Err.__eq__` from the source:
`isinstance(other, Ok) and self._value == other._value` (resp. `Err`).
For the builtins it is CPython's behaviour: numeric cross-equality between
`bool` and `int` (`True == 1`), value equality for ints and strings,
identity for exception instances (no `__eq__` defined) and for the `None`
singleton, and `False` across unrelated types. -/
def pyEq : PyVal → PyVal → Bool
  | .none, .none => true
  | .bool a, .bool b => a == b
  | .bool a, .int n => (if a then (1 : Int) else 0) == n
  | .int n, .bool a => n == (if a then (1 : Int) else 0)
  | .int m, .int n => m == n
  | .str s, .str t => s == t
  | .exc e, .exc f => e == f
  | .ok v, .ok w => pyEq v w
  | .err v, .err w => pyEq v w
  | _, _ => false

/-- `Ok.__ne__` / `Err.__ne__` from the source: `not (self == other)`. -/
def pyNe (a b : PyVal) : Bool := !(pyEq a b)

/-! ## Slots and the attribute model

`Ok.__slots__ = ('_value',)` and `Err.__slots__ = ('_value',)` (source lines
41 and 91). An instance of a slots-only class has no `__dict__`, so
attribute assignment on an instance succeeds exactly for the slot names
(slot descriptors are settable data descriptors; any other name raises
`AttributeError`). -/

/-- `Ok.__slots__` (source line 41). -/
def okSlots : List String := ["_value"]

/-- `Err.__slots__` (source line 91). -/
def errSlots : List String := ["_value"]

/-- Whether `setattr(instance, name, x)` succeeds on an instance of a
slots-only class (no instance `__dict__`): it does iff `name` is a slot. -/
def slotsSetattrAllowed (slots : List String) (name : String) : Bool :=
  slots.contains name

/-! ## The class-pattern matching protocol

`Ok.__match_args__ = ('value',)` (line 40) and `Err.__match_args__ =
('value',)` (line 90). A one-positional class pattern `case Ok(x)` first
checks `isinstance`, then looks up the attribute named by
`__match_args__[0]` with `getattr`; an `AttributeError` there makes the
whole pattern fail to match (PEP 634 runtime semantics). -/

/-- `Ok.__match_args__` (source line 40). -/
def okMatchArgs : List String := ["value"]

/-- `Err.__match_args__` (source line 90). -/
def errMatchArgs : List String := ["value"]

/-- `getattr` restricted to the data attributes of an `Ok`/`Err` instance
holding payload `v`: the only data attribute is the slot `_value`; there is
no `value` attribute or property on either class. (Method lookups resolve
to bound methods; they are not consulted by the match protocol here and are
omitted.) -/
def instGetattr (v : PyVal) (name : String) : Option PyVal :=
  if name = "_value" then some v else Option.none

/-- One-positional-capture class pattern: given the `isinstance` test
result, the class's `__match_args__` and the subject's `getattr`, return
the value bound by the capture, or `none` when the pattern fails to match. -/
def matchClass1 (isinst : Bool) (matchArgs : List String)
    (getattr : String → Option PyVal) : Option PyVal :=
  if isinst then
    match matchArgs with
    | [] => Option.none
    | a :: _ => getattr a
  else Option.none

/-- `case Ok(x)` applied to a subject: what the capture binds, if anything. -/
def matchOk : PyVal → Option PyVal
  | .ok v => matchClass1 true okMatchArgs (instGetattr v)
  | _ => Option.none

/-- `case Err(x)` applied to a subject: what the capture binds, if anything. -/
def matchErr : PyVal → Option PyVal
  | .err v => matchClass1 true errMatchArgs (instGetattr v)
  | _ => Option.none

/-! ## `UnwrapError` and the extraction methods -/

/-- The `UnwrapError` exception: stores the originating `Result` in `_result`
(exposed by the `result` property) and passes the message to `Exception`. -/
structure UnwrapError where
  result : PyVal
  message : String
  deriving DecidableEq, Repr

/-- `.unwrap()` dispatched on a `Result` value: `Ok.unwrap` returns the held
value; `Err.unwrap` raises `UnwrapError(self, ...)`. `Option.none` models
the method not existing on a non-`Result` receiver. -/
def unwrapMethod : PyVal → Option (Except UnwrapError PyVal)
  | .ok v => some (Except.ok v)
  | .err v =>
      some (Except.error
        ⟨.err v, "Called `Result.unwrap()` on an `Err` value"⟩)
  | _ => Option.none

/-- `.err()` dispatched on a `Result` value: `Ok.err` raises
`UnwrapError(self, ...)`; `Err.err` returns the held error. -/
def errMethod : PyVal → Option (Except UnwrapError PyVal)
  | .ok v =>
      some (Except.error
        ⟨.ok v, "Called `Result.err()` on an `Ok` value"⟩)
  | .err v => some (Except.ok v)
  | _ => Option.none

/-- `.unwrap_or(default)` dispatched on a `Result` value: `Ok.unwrap_or`
ignores the default and returns the held value; `Err.unwrap_or` returns the
default. -/
def unwrapOrMethod (d : PyVal) : PyVal → Option PyVal
  | .ok v => some v
  | .err _ => some d
  | _ => Option.none

/-! ## `repr` and its round-trip

`Ok.__repr__` is `'Ok({})'.format(repr(self._value))` (lines 54-55),
`Err.__repr__` is `'Err({})'.format(repr(self._value))` (lines 96-97). The
payload `repr` is CPython's: decimal for ints, `True`/`False`/`None`,
single-quoted strings (escaping of special characters inside the payload
string is not modelled; no claim touches it), `Cls(...)` for exceptions. -/

/-- The class name, as CPython's `repr`/`__name__` renders it. -/
def PyClass.name : PyClass → String
  | .object => "object"
  | .BaseException => "BaseException"
  | .Exception => "Exception"
  | .ValueError => "ValueError"
  | .LookupError => "LookupError"
  | .IndexError => "IndexError"
  | .TypeError => "TypeError"
  | .SystemExit => "SystemExit"
  | .KeyboardInterrupt => "KeyboardInterrupt"
  | .intClass => "int"
  | .strClass => "str"

/-- Python `repr` on the modelled universe. -/
def pyRepr : PyVal → String
  | .none => "None"
  | .bool b => if b then "True" else "False"
  | .int n => toString n
  | .str s => "'" ++ s ++ "'"
  | .exc e => e.ty.name ++ "()"
  | .ok v => "Ok(" ++ pyRepr v ++ ")"
  | .err v => "Err(" ++ pyRepr v ++ ")"

/-- Parse a decimal integer literal (with optional leading minus), as
Python `eval` reads one. -/
def parseIntLit (cs : List Char) : Option Int :=
  let digits (ds : List Char) : Option Nat :=
    if ds.isEmpty then Option.none
    else ds.foldl (fun acc c =>
      acc.bind (fun a => if c.isDigit then some (a * 10 + (c.toNat - 48)) else Option.none))
      (some 0)
  match cs with
  | '-' :: rest => (digits rest).map (fun n => -(n : Int))
  | _ => (digits cs).map (fun n => (n : Int))

/-- `eval` restricted to the grammar the round-trip claim exercises:
`Ok(<int literal>)` and `Err(<int literal>)`. Models CPython's `eval` of a
`repr` string in a scope where `Ok` and `Err` are bound to the library's
classes. -/
def evalRepr (s : String) : Option PyVal :=
  let cs := s.toList
  if cs.take 3 = ['O', 'k', '('] ∧ cs.getLast? = some ')' then
    (parseIntLit (cs.drop 3).dropLast).map .int |>.map .ok
  else if cs.take 4 = ['E', 'r', 'r', '('] ∧ cs.getLast? = some ')' then
    (parseIntLit (cs.drop 4).dropLast).map .int |>.map .err
  else
    Option.none

/-! ## Hashing

`Ok.__hash__` is `hash((True, self._value))` (lines 63-64), `Err.__hash__`
is `hash((False, self._value))` (lines 105-106). We reproduce CPython's
hashing exactly (64-bit build): integers hash modulo `2^61 - 1` with the
sign preserved and `-1` mapped to `-2`; `hash(True) = 1`, `hash(False) = 0`;
tuples hash with the xxHash-based combiner of `tuplehash` in
`Objects/tupleobject.c`. Hash values are carried as `Nat` below `2^64`
(the unsigned two's-complement image of `Py_hash_t`). CPython randomises
string hashing per process (`PYTHONHASHSEED`), so the string hash is a
parameter of `pyHash`; every theorem below holds for all of them. -/

/-- `2^64`, the word modulus of a 64-bit build. -/
def HASH_MODULUS : Nat := 18446744073709551616

/-- xxHash prime 1 (`XXPRIME_1`). -/
def XXPRIME_1 : Nat := 11400714785074694791

/-- xxHash prime 2 (`XXPRIME_2`). -/
def XXPRIME_2 : Nat := 14029467366897019727

/-- xxHash prime 5 (`XXPRIME_5`). -/
def XXPRIME_5 : Nat := 2870177450012600261

/-- Multiplicative inverse of `XXPRIME_1` modulo `2^64`. -/
def XXPRIME_1_INV : Nat := 614540362697595703

/-- Multiplicative inverse of `XXPRIME_2` modulo `2^64`. -/
def XXPRIME_2_INV : Nat := 839798700976720815

/-- Rotate a 64-bit word left by 31 bits. -/
def rotl31 (x : Nat) : Nat := x % 2 ^ 33 * 2 ^ 31 + x / 2 ^ 33

/-- Rotate a 64-bit word right by 31 bits (the inverse of `rotl31`). -/
def rotr31 (x : Nat) : Nat := x % 2 ^ 31 * 2 ^ 33 + x / 2 ^ 31

/-- One lane-absorption step of CPython's tuple hash:
`acc = XXROTATE(acc + lane * XXPRIME_2); acc *= XXPRIME_1`. -/
def xxStep (acc lane : Nat) : Nat :=
  rotl31 ((acc + lane * XXPRIME_2) % HASH_MODULUS) * XXPRIME_1 % HASH_MODULUS

/-- The accumulator of CPython's 2-tuple hash before the final `-1` patch:
absorb both lanes starting from `XXPRIME_5`, then add
`len ^ (XXPRIME_5 ^ 3527539)` with `len = 2`. -/
def tupleRaw2 (l1 l2 : Nat) : Nat :=
  (xxStep (xxStep XXPRIME_5 l1) l2
    + Nat.xor 2 (Nat.xor XXPRIME_5 3527539)) % HASH_MODULUS

/-- CPython's hash of a 2-tuple from the hashes of its components: the raw
accumulator, with `(Py_uhash_t)-1` patched to `1546275796`. -/
def tupleHash2 (l1 l2 : Nat) : Nat :=
  if tupleRaw2 l1 l2 = HASH_MODULUS - 1 then 1546275796 else tupleRaw2 l1 l2

/-- Recover the lane-argument residue from the output of `xxStep acc`:
undo the `XXPRIME_1` multiplication, the rotation, and the `acc` addition,
then divide by `XXPRIME_2`. Proof-support for the injectivity of the tuple
hash in its first lane. -/
def laneInvAt (acc y : Nat) : Nat :=
  (rotr31 (y * XXPRIME_1_INV % HASH_MODULUS) + (HASH_MODULUS - acc % HASH_MODULUS))
    * XXPRIME_2_INV % HASH_MODULUS

/-- CPython's hash of an `int` (64-bit build): reduce the magnitude modulo
the Mersenne prime `2^61 - 1`, restore the sign, map `-1` to `-2`, and
take the unsigned 64-bit image. -/
def pyIntHash (n : Int) : Nat :=
  let p : Int := 2 ^ 61 - 1
  let m : Int := if 0 ≤ n then n % p else -((-n) % p)
  let m : Int := if m = -1 then -2 else m
  (m % (2 ^ 64 : Int)).toNat

/-- Python `hash` on the modelled universe, parameterised by the
process-seed-dependent string hash `sh`. `hash(None)` is the fixed constant
CPython uses; exception instances use the identity-based default hash,
modelled as the identity number itself. `ok`/`err` are the source's
`hash((True, self._value))` / `hash((False, self._value))`. -/
def pyHash (sh : String → Nat) : PyVal → Nat
  | .none => 18293968963075307133
  | .bool b => pyIntHash (if b then 1 else 0)
  | .int n => pyIntHash n
  | .str s => sh s
  | .exc e => e.id
  | .ok v => tupleHash2 (pyIntHash 1) (pyHash sh v)
  | .err v => tupleHash2 (pyIntHash 0) (pyHash sh v)

/-- The number of distinct members of the Python set built from a list of
values: insertion deduplicates by `==` (hash buckets only route the lookup;
with a hash consistent with `==` the resulting cardinality is the number of
`==`-distinct elements). -/
def pySetCard (l : List PyVal) : Nat :=
  (l.foldl (fun acc v => if acc.any (pyEq · v) then acc else v :: acc) []).length

/-! ## The exception-adapting decorator factories

`as_result` (lines 170-201) and `as_async_result` (lines 204-236). A
selector tuple element is either a class object or a non-class value; the
factories validate the tuple (default `(Exception,)`) and raise `TypeError`
before building any wrapper; the wrappers run the callable and convert its
outcome. Calls are modelled by the callable's outcome: a normal return or a
raised exception instance. -/

/-- An element of the `exceptions` tuple passed to a factory: a class
object, or a value that is not a class at all (`inspect.isclass` false). -/
inductive PySel where
  | cls (c : PyClass)
  | nonClass (v : PyVal)
  deriving DecidableEq, Repr

/-- `inspect.isclass` on a selector element. -/
def isclass : PySel → Bool
  | .cls _ => true
  | .nonClass _ => false

/-- `issubclass(e, BaseException)` on a selector element already known to
be a class (Python evaluates this only after `isclass` succeeded). -/
def selIsBaseException : PySel → Bool
  | .cls c => pyIssubclass c .BaseException
  | .nonClass _ => false

/-- A raised builtin exception, for the factories' `TypeError`. -/
structure PyError where
  ty : PyClass
  msg : String
  deriving DecidableEq, Repr

/-- `as_result(exceptions)` up to returning `decorator` (lines 170-201):
substitute the default `(Exception,)` when the argument is `None`, then
raise `TypeError('as_result() requires one or more exception types')`
unless the tuple is non-empty and every element is a class deriving
`BaseException` (`if not exceptions or not all(inspect.isclass(e) and
issubclass(e, BaseException) for e in exceptions)`). On success the
factory closes over the validated tuple; the `.ok` value is that tuple,
which is all the state the returned decorator and its wrappers use. The
`TypeError` is raised at decoration time, before any wrapper exists. -/
def as_result (exceptions : Option (List PySel)) : Except PyError (List PySel) :=
  let excs := exceptions.getD [.cls .Exception]
  if excs.isEmpty || !(excs.all fun e => isclass e && selIsBaseException e) then
    Except.error ⟨.TypeError, "as_result() requires one or more exception types"⟩
  else
    Except.ok excs

/-- `as_async_result(exceptions)` up to returning `decorator` (lines
204-236): the validation is textually the same as `as_result`'s, message
string included. -/
def as_async_result (exceptions : Option (List PySel)) : Except PyError (List PySel) :=
  let excs := exceptions.getD [.cls .Exception]
  if excs.isEmpty || !(excs.all fun e => isclass e && selIsBaseException e) then
    Except.error ⟨.TypeError, "as_result() requires one or more exception types"⟩
  else
    Except.ok excs

/-- Outcome of invoking (or awaiting) the wrapped callable on some
arguments: a normal return, or a raised exception instance. -/
inductive Outcome where
  | ret (v : PyVal)
  | raise (e : Exc)
  deriving DecidableEq, Repr

/-- Whether `except exceptions as exc` catches a raised instance `e`:
some element of the tuple is a class with `isinstance(e, cls)`. (After
validation every element is a class; a non-class element would raise
`TypeError` at catch time and is modelled as not matching.) -/
def excClauseMatches (excs : List PySel) (e : Exc) : Bool :=
  excs.any fun s =>
    match s with
    | .cls c => pyIssubclass e.ty c
    | .nonClass _ => false

/-- The synchronous `wrapper` (lines 192-197): call `f` with the forwarded
arguments; a normal return `r` becomes `Ok(r)`; a raised exception caught
by `except exceptions` becomes `Err(exc)` holding the very instance; any
other raised exception propagates (`Except.error`). `f` is the wrapped
callable, modelled by the outcome it produces on given arguments. -/
def wrapper {α : Type} (excs : List PySel) (f : α → Outcome) (args : α) :
    Except Exc PyVal :=
  match f args with
  | .ret v => Except.ok (.ok v)
  | .raise e =>
      if excClauseMatches excs e then Except.ok (.err (.exc e)) else Except.error e

/-- An awaitable, modelled by the outcome awaiting it produces (the
suspension itself is erased by the embedding; cancellation, which simply
prevents completion, is outside the model). -/
structure Awaitable where
  awaited : Outcome
  deriving DecidableEq, Repr

/-- An awaitable that resolves to a `Result` or to a propagated raised
exception: the value of invoking the async wrapper. -/
structure AwaitableResult where
  awaited : Except Exc PyVal
  deriving Repr

/-- The asynchronous `async_wrapper` (lines 229-234): await `f` with the
forwarded arguments; the awaited normal value `r` becomes `Ok(r)`; a
raised exception caught by `except exceptions` becomes `Err(exc)`; any
other raised exception propagates. The produced wrapper is itself an
awaitable. -/
def async_wrapper {α : Type} (excs : List PySel) (f : α → Awaitable) (args : α) :
    AwaitableResult :=
  ⟨match (f args).awaited with
   | .ret v => Except.ok (.ok v)
   | .raise e =>
       if excClauseMatches excs e then Except.ok (.err (.exc e)) else Except.error e⟩

/-! ## Helper lemmas on the tuple hash -/

theorem rotl31_lt {x : Nat} (hx : x < HASH_MODULUS) : rotl31 x < HASH_MODULUS := by
  simp only [rotl31, HASH_MODULUS] at *
  omega

theorem rotr31_rotl31 {x : Nat} (hx : x < HASH_MODULUS) : rotr31 (rotl31 x) = x := by
  simp only [rotl31, rotr31, HASH_MODULUS] at *
  omega

theorem mul_inv_cancel_mod {p q : Nat} (hpq : p * q % HASH_MODULUS = 1) (x : Nat) :
    x * p * q % HASH_MODULUS = x % HASH_MODULUS := by
  rw [mul_assoc, Nat.mul_mod, hpq, mul_one]
  exact Nat.mod_mod_of_dvd x dvd_rfl

theorem mul_inv_cancel_mod' {p q : Nat} (hpq : p * q % HASH_MODULUS = 1) (x : Nat) :
    x * p % HASH_MODULUS * q % HASH_MODULUS = x % HASH_MODULUS := by
  rw [Nat.mod_mul_mod, mul_inv_cancel_mod hpq]

theorem xxprime1_inv : XXPRIME_1 * XXPRIME_1_INV % HASH_MODULUS = 1 := by decide

theorem xxprime2_inv : XXPRIME_2 * XXPRIME_2_INV % HASH_MODULUS = 1 := by decide

theorem xxStep_lt (acc lane : Nat) : xxStep acc lane < HASH_MODULUS := by
  simp only [xxStep]
  exact Nat.mod_lt _ (by decide)

theorem xxStep_acc_inj (lane : Nat) {a b : Nat} (ha : a < HASH_MODULUS)
    (hb : b < HASH_MODULUS) (h : xxStep a lane = xxStep b lane) : a = b := by
  simp only [xxStep] at h
  have hu : (a + lane * XXPRIME_2) % HASH_MODULUS < HASH_MODULUS :=
    Nat.mod_lt _ (by decide)
  have hu' : (b + lane * XXPRIME_2) % HASH_MODULUS < HASH_MODULUS :=
    Nat.mod_lt _ (by decide)
  have h2 := congrArg (fun t => t * XXPRIME_1_INV % HASH_MODULUS) h
  simp only [mul_inv_cancel_mod' xxprime1_inv] at h2
  rw [Nat.mod_eq_of_lt (rotl31_lt hu), Nat.mod_eq_of_lt (rotl31_lt hu')] at h2
  have h3 := congrArg rotr31 h2
  rw [rotr31_rotl31 hu, rotr31_rotl31 hu'] at h3
  have h4 : a % HASH_MODULUS = b % HASH_MODULUS := by
    have := (Nat.ModEq.add_right_cancel' (lane * XXPRIME_2) h3)
    exact this
  rw [Nat.mod_eq_of_lt ha, Nat.mod_eq_of_lt hb] at h4
  exact h4

theorem xxStep_lane_congr (acc : Nat) {h h' : Nat}
    (hmod : h % HASH_MODULUS = h' % HASH_MODULUS) : xxStep acc h = xxStep acc h' := by
  simp only [xxStep]
  have hm : (acc + h * XXPRIME_2) % HASH_MODULUS
      = (acc + h' * XXPRIME_2) % HASH_MODULUS :=
    Nat.ModEq.add_left acc (Nat.ModEq.mul_right XXPRIME_2 hmod)
  rw [hm]

theorem xxStep_lane_det (acc : Nat) (h : Nat) (hacc : acc < HASH_MODULUS) :
    laneInvAt acc (xxStep acc h) = h % HASH_MODULUS := by
  simp only [xxStep, laneInvAt]
  have hu : (acc + h * XXPRIME_2) % HASH_MODULUS < HASH_MODULUS :=
    Nat.mod_lt _ (by decide)
  rw [mul_inv_cancel_mod' xxprime1_inv, Nat.mod_eq_of_lt (rotl31_lt hu),
    rotr31_rotl31 hu, Nat.mod_eq_of_lt hacc]
  have key : ((acc + h * XXPRIME_2) % HASH_MODULUS + (HASH_MODULUS - acc))
      % HASH_MODULUS = h * XXPRIME_2 % HASH_MODULUS := by
    generalize h * XXPRIME_2 = t
    simp only [HASH_MODULUS] at *
    omega
  rw [← Nat.mod_mul_mod, key, Nat.mod_mul_mod, mul_inv_cancel_mod xxprime2_inv]

theorem tupleRaw2_lane_ne (h : Nat) : tupleRaw2 1 h ≠ tupleRaw2 0 h := by
  intro heq
  have hss : xxStep (xxStep XXPRIME_5 1) h = xxStep (xxStep XXPRIME_5 0) h := by
    simp only [tupleRaw2] at heq
    have hs1 : xxStep (xxStep XXPRIME_5 1) h < HASH_MODULUS := xxStep_lt _ _
    have hs0 : xxStep (xxStep XXPRIME_5 0) h < HASH_MODULUS := xxStep_lt _ _
    generalize hx : xxStep (xxStep XXPRIME_5 1) h = x at *
    generalize hy : xxStep (xxStep XXPRIME_5 0) h = y at *
    generalize Nat.xor 2 (Nat.xor XXPRIME_5 3527539) = c at heq
    simp only [HASH_MODULUS] at *
    omega
  have hacc : xxStep XXPRIME_5 1 = xxStep XXPRIME_5 0 :=
    xxStep_acc_inj h (xxStep_lt _ _) (xxStep_lt _ _) hss
  have hne : xxStep XXPRIME_5 1 ≠ xxStep XXPRIME_5 0 := by decide
  exact hne hacc

theorem tupleRaw2_fst_det (d h : Nat) (h1 : tupleRaw2 d h = HASH_MODULUS - 1) :
    h % HASH_MODULUS
      = laneInvAt (xxStep XXPRIME_5 d)
          (HASH_MODULUS - 1 - Nat.xor 2 (Nat.xor XXPRIME_5 3527539)) := by
  have hs : xxStep (xxStep XXPRIME_5 d) h
      = HASH_MODULUS - 1 - Nat.xor 2 (Nat.xor XXPRIME_5 3527539) := by
    simp only [tupleRaw2] at h1
    have hlt : xxStep (xxStep XXPRIME_5 d) h < HASH_MODULUS := xxStep_lt _ _
    have hc : Nat.xor 2 (Nat.xor XXPRIME_5 3527539) = 2870177450013471924 := by decide
    rw [hc] at h1 ⊢
    generalize hx : xxStep (xxStep XXPRIME_5 d) h = x at *
    simp only [HASH_MODULUS] at *
    omega
  rw [← hs, xxStep_lane_det _ _ (xxStep_lt _ _)]

theorem laneInvAt_lt (acc y : Nat) : laneInvAt acc y < HASH_MODULUS := by
  simp only [laneInvAt]
  exact Nat.mod_lt _ (by decide)

theorem tupleRaw2_corner10 (h : Nat) (h1 : tupleRaw2 1 h = HASH_MODULUS - 1) :
    tupleRaw2 0 h ≠ 1546275796 := by
  have hm := tupleRaw2_fst_det 1 h h1
  have hcongr : xxStep (xxStep XXPRIME_5 0) h
      = xxStep (xxStep XXPRIME_5 0)
          (laneInvAt (xxStep XXPRIME_5 1)
            (HASH_MODULUS - 1 - Nat.xor 2 (Nat.xor XXPRIME_5 3527539))) :=
    xxStep_lane_congr _ (by rw [hm, Nat.mod_eq_of_lt (laneInvAt_lt _ _)])
  simp only [tupleRaw2]
  rw [hcongr]
  decide

theorem tupleRaw2_corner01 (h : Nat) (h0 : tupleRaw2 0 h = HASH_MODULUS - 1) :
    tupleRaw2 1 h ≠ 1546275796 := by
  have hm := tupleRaw2_fst_det 0 h h0
  have hcongr : xxStep (xxStep XXPRIME_5 1) h
      = xxStep (xxStep XXPRIME_5 1)
          (laneInvAt (xxStep XXPRIME_5 0)
            (HASH_MODULUS - 1 - Nat.xor 2 (Nat.xor XXPRIME_5 3527539))) :=
    xxStep_lane_congr _ (by rw [hm, Nat.mod_eq_of_lt (laneInvAt_lt _ _)])
  simp only [tupleRaw2]
  rw [hcongr]
  decide

/-- The tuple hash separates the two variant discriminators for every
payload hash: `hash((True, v))` and `hash((False, v))` never coincide. -/
theorem tupleHash2_lane_ne (h : Nat) : tupleHash2 1 h ≠ tupleHash2 0 h := by
  have hne := tupleRaw2_lane_ne h
  simp only [tupleHash2]
  by_cases h1 : tupleRaw2 1 h = HASH_MODULUS - 1 <;>
    by_cases h0 : tupleRaw2 0 h = HASH_MODULUS - 1 <;>
    simp only [h1, h0, if_pos, if_neg, if_true, if_false]
  · exact absurd (h1.trans h0.symm) hne
  · exact fun hK => tupleRaw2_corner10 h h1 hK.symm
  · exact tupleRaw2_corner01 h h0
  · exact hne

/-- `pyHash` is consistent with `pyEq`: Python-equal values hash equally
(for every string-hash seed). -/
theorem pyHash_congr (sh : String → Nat) :
    ∀ a b : PyVal, pyEq a b = true → pyHash sh a = pyHash sh b := by
  intro a
  induction a with
  | none =>
      intro b h
      cases b with
      | none => rfl
      | _ => simp [pyEq] at h
  | bool a =>
      intro b h
      cases b with
      | bool c => simp [pyEq] at h; rw [h]
      | int n => simp [pyEq] at h; simp only [pyHash]; rw [h]
      | _ => simp [pyEq] at h
  | int n =>
      intro b h
      cases b with
      | bool c => simp [pyEq] at h; simp only [pyHash]; rw [h]
      | int m => simp [pyEq] at h; rw [h]
      | _ => simp [pyEq] at h
  | str s =>
      intro b h
      cases b with
      | str t => simp [pyEq] at h; rw [h]
      | _ => simp [pyEq] at h
  | exc e =>
      intro b h
      cases b with
      | exc f => simp [pyEq] at h; rw [h]
      | _ => simp [pyEq] at h
  | ok v ih =>
      intro b h
      cases b with
      | ok w => simp only [pyEq] at h; simp only [pyHash]; rw [ih w h]
      | _ => simp [pyEq] at h
  | err v ih =>
      intro b h
      cases b with
      | err w => simp only [pyEq] at h; simp only [pyHash]; rw [ih w h]
      | _ => simp [pyEq] at h

/-! ## The claims -/

/-- Claim C1. The claim states that a one-capture class pattern on an
`Ok`/`Err` subject matches and binds the payload. The code contradicts its
own test suite here: `__match_args__` names the attribute `value`, but the
classes store the payload in the slot `_value` and define no `value`
attribute or property, so the pattern's attribute lookup fails and the
pattern never matches. This theorem evaluates the embedded match protocol
at the test suite's own inputs (`Ok("yay")`, `Err("nay")`): the capture
binds nothing. -/
theorem C1_pattern_match_never_binds :
    matchOk (.ok (.str "yay")) = Option.none ∧
    matchErr (.err (.str "nay")) = Option.none ∧
    instGetattr (.str "yay") "value" = Option.none ∧
    (∀ v : PyVal, matchOk (.ok v) = Option.none ∧ matchErr (.err v) = Option.none) := by
  refine ⟨by decide, by decide, by decide, ?_⟩
  intro v
  constructor <;> simp [matchOk, matchErr, matchClass1, okMatchArgs, errMatchArgs,
    instGetattr]

/-- Claim C2, counterexample. The claim states that reassigning the held
value of a `Success`/`Failure` instance fails. It does not: the payload
lives in the slot `_value`, and a slot is a settable data descriptor, so
`instance._value = x` succeeds on both variants. -/
theorem C2_cex_slot_reassignment_allowed :
    slotsSetattrAllowed okSlots "_value" = true ∧
    slotsSetattrAllowed errSlots "_value" = true := by decide

/-- Claim C2, amended: attaching any attribute other than the single slot
`_value` to a `Success` or `Failure` instance fails (the classes have
`__slots__ = ('_value',)` and no instance dictionary); the slot `_value`
itself remains assignable, so the held payload is protected only by
convention. -/
theorem C2_no_new_attributes (name : String) (h : name ≠ "_value") :
    slotsSetattrAllowed okSlots name = false ∧
    slotsSetattrAllowed errSlots name = false := by
  constructor <;> simp [slotsSetattrAllowed, okSlots, errSlots] <;>
    exact fun hh => h hh

/-- Witness for C2 (amended): the test suite's arbitrary attribute name is
rejected on both variants. -/
theorem C2_no_new_attributes_witness :
    slotsSetattrAllowed okSlots "some_arbitrary_attribute" = false ∧
    slotsSetattrAllowed errSlots "some_arbitrary_attribute" = false :=
  ⟨(C2_no_new_attributes "some_arbitrary_attribute" (by decide)).1,
   (C2_no_new_attributes "some_arbitrary_attribute" (by decide)).2⟩

/-- Claim C5: two `Result` values are equal iff they are the same variant
and their payloads are Python-equal; `Ok(x) != Err(x)` even for equal
payloads; comparing a `Result` against an unrelated type is `False` and
never an error (`pyEq` is a total function into `Bool`). -/
theorem C5_structural_equality (x y : PyVal) :
    (pyEq (.ok x) (.ok y) = pyEq x y) ∧
    (pyEq (.err x) (.err y) = pyEq x y) ∧
    (pyEq (.ok x) (.err x) = false ∧ pyEq (.err x) (.ok x) = false) ∧
    (∀ n : Int, pyEq (.ok x) (.int n) = false ∧ pyEq (.err x) (.int n) = false) ∧
    (∀ s : String, pyEq (.ok x) (.str s) = false ∧ pyEq (.err x) (.str s) = false) ∧
    (∀ b : Bool, pyEq (.ok x) (.bool b) = false ∧ pyEq (.err x) (.bool b) = false) ∧
    (pyEq (.ok x) .none = false ∧ pyEq (.err x) .none = false) ∧
    (∀ e : Exc, pyEq (.ok x) (.exc e) = false ∧ pyEq (.err x) (.exc e) = false) ∧
    (pyNe (.ok x) (.ok y) = !pyEq x y) := by
  refine ⟨rfl, rfl, ⟨rfl, rfl⟩, fun n => ⟨rfl, rfl⟩, fun s => ⟨rfl, rfl⟩,
    fun b => ⟨rfl, rfl⟩, ⟨rfl, rfl⟩, fun e => ⟨rfl, rfl⟩, rfl⟩

/-- Claim C7: `unwrap()` on `Ok(v)` returns `v`; `unwrap()` on `Err(v)`
raises `UnwrapError` whose `result` is the very `Err` instance it was
called on; `err()` on `Err(v)` returns `v`; `err()` on `Ok(v)` raises
`UnwrapError` carrying the `Ok` instance. The fixed messages are the ones
the source raises. -/
theorem C7_unwrap_contract (v : PyVal) :
    unwrapMethod (.ok v) = some (Except.ok v) ∧
    unwrapMethod (.err v)
      = some (Except.error ⟨.err v, "Called `Result.unwrap()` on an `Err` value"⟩) ∧
    errMethod (.err v) = some (Except.ok v) ∧
    errMethod (.ok v)
      = some (Except.error ⟨.ok v, "Called `Result.err()` on an `Ok` value"⟩) :=
  ⟨rfl, rfl, rfl, rfl⟩

/-- Claim C8: the debug representation is the variant name applied to the
payload's representation — `Ok(123)` for a success holding 123 — and it
round-trips: evaluating the representation of `Ok(123)` (resp. `Err(-1)`)
yields a value Python-equal to the original. -/
theorem C8_repr_roundtrip :
    pyRepr (.ok (.int 123)) = "Ok(123)" ∧
    pyRepr (.err (.int (-1))) = "Err(-1)" ∧
    (∃ v, evalRepr (pyRepr (.ok (.int 123))) = some v ∧
      pyEq v (.ok (.int 123)) = true) ∧
    (∃ v, evalRepr (pyRepr (.err (.int (-1)))) = some v ∧
      pyEq v (.err (.int (-1))) = true) := by
  refine ⟨by decide, by decide, ⟨.ok (.int 123), by decide, by decide⟩,
    ⟨.err (.int (-1)), by decide, by decide⟩⟩

/-- Claim C6: hashing is consistent with equality — Python-equal `Result`
values hash equally for every string-hash seed; the hash is the tuple hash
of the per-variant discriminator (`hash(True)` resp. `hash(False)`) with
the payload's hash, and `Ok(v)` and `Err(v)` hash differently for every
payload `v`; the set built from `{Ok(1), Err("2"), Ok(1), Err("2")}` has
exactly 2 distinct members. -/
theorem C6_hash_consistency :
    (∀ (sh : String → Nat) (a b : PyVal), pyEq a b = true →
      pyHash sh (.ok a) = pyHash sh (.ok b) ∧
      pyHash sh (.err a) = pyHash sh (.err b)) ∧
    (∀ (sh : String → Nat) (v : PyVal),
      pyHash sh (.ok v) = tupleHash2 (pyIntHash 1) (pyHash sh v) ∧
      pyHash sh (.err v) = tupleHash2 (pyIntHash 0) (pyHash sh v) ∧
      pyHash sh (.ok v) ≠ pyHash sh (.err v)) ∧
    pySetCard [.ok (.int 1), .err (.str "2"), .ok (.int 1), .err (.str "2")] = 2 := by
  refine ⟨?_, ?_, by decide⟩
  · intro sh a b h
    constructor <;> simp only [pyHash] <;> rw [pyHash_congr sh a b h]
  · intro sh v
    refine ⟨rfl, rfl, ?_⟩
    show tupleHash2 (pyIntHash 1) (pyHash sh v)
      ≠ tupleHash2 (pyIntHash 0) (pyHash sh v)
    have h1 : pyIntHash 1 = 1 := by decide
    have h0 : pyIntHash 0 = 0 := by decide
    rw [h1, h0]
    exact tupleHash2_lane_ne _

/-- Witness for C6: `Ok(1)` and `Ok(True)` are Python-equal and hash
equally; `Ok(5)` and `Err(5)` hash differently. -/
theorem C6_hash_consistency_witness :
    pyEq (.int 1) (.bool true) = true ∧
    pyHash (fun _ => 0) (.ok (.int 1)) = pyHash (fun _ => 0) (.ok (.bool true)) ∧
    pyHash (fun _ => 0) (.ok (.int 5)) ≠ pyHash (fun _ => 0) (.err (.int 5)) :=
  ⟨by decide,
   (C6_hash_consistency.1 (fun _ => 0) (.int 1) (.bool true) (by decide)).1,
   (C6_hash_consistency.2.1 (fun _ => 0) (.int 5)).2.2⟩

/-- Claim C3: the synchronous wrapper, for any callable outcome: a normal
return `r` yields `Ok(r)`; a raised exception whose runtime class matches
a selector (including subclasses, via the `except` clause) yields
`Err(e)` holding the very raised instance; a non-matching raised exception
propagates unchanged and no `Result` is produced. The hypothesis records
that the selector tuple passed decoration-time validation, which is when
the wrapper comes to exist. -/
theorem C3_sync_wrapper_contract {α : Type} (S : List PySel) (f : α → Outcome)
    (args : α) (hS : as_result (some S) = Except.ok S) :
    (∀ r, f args = .ret r → wrapper S f args = Except.ok (.ok r)) ∧
    (∀ e, f args = .raise e → excClauseMatches S e = true →
      wrapper S f args = Except.ok (.err (.exc e))) ∧
    (∀ e, f args = .raise e → excClauseMatches S e = false →
      wrapper S f args = Except.error e) := by
  refine ⟨?_, ?_, ?_⟩
  · intro r hf
    simp [wrapper, hf]
  · intro e hf hm
    simp [wrapper, hf, hm]
  · intro e hf hm
    simp [wrapper, hf, hm]

/-- Witness for C3: with selectors `(ValueError,)`, a callable returning
123 yields `Ok(123)`; one raising a `ValueError` instance yields `Err` of
that instance; one raising an `IndexError` propagates it. -/
theorem C3_sync_wrapper_contract_witness :
    wrapper [PySel.cls .ValueError] (fun _ : Unit => Outcome.ret (.int 123)) ()
      = Except.ok (.ok (.int 123)) ∧
    wrapper [PySel.cls .ValueError] (fun _ : Unit => Outcome.raise ⟨.ValueError, 7⟩) ()
      = Except.ok (.err (.exc ⟨.ValueError, 7⟩)) ∧
    wrapper [PySel.cls .ValueError] (fun _ : Unit => Outcome.raise ⟨.IndexError, 8⟩) ()
      = Except.error ⟨.IndexError, 8⟩ :=
  ⟨(C3_sync_wrapper_contract [PySel.cls .ValueError] _ () rfl).1 _ rfl,
   (C3_sync_wrapper_contract [PySel.cls .ValueError] _ () rfl).2.1 _ rfl (by decide),
   (C3_sync_wrapper_contract [PySel.cls .ValueError] _ () rfl).2.2 _ rfl (by decide)⟩

/-- Claim C4: both factories validate the selector tuple at decoration
time — an empty tuple, or a tuple with any element that is not an
exception class, makes the factory raise `TypeError` (so no wrapper is
produced); an omitted tuple defaults to the single catch-all `(Exception,)`,
which covers every class deriving `Exception` (such as `ValueError`) but
not the system-exiting classes `SystemExit` and `KeyboardInterrupt`, which
derive only `BaseException`. -/
theorem C4_decoration_time_validation :
    (as_result (some [])
      = Except.error ⟨.TypeError, "as_result() requires one or more exception types"⟩) ∧
    (as_async_result (some [])
      = Except.error ⟨.TypeError, "as_result() requires one or more exception types"⟩) ∧
    (∀ S : List PySel, ∀ x ∈ S, (isclass x && selIsBaseException x) = false →
      as_result (some S)
        = Except.error ⟨.TypeError, "as_result() requires one or more exception types"⟩ ∧
      as_async_result (some S)
        = Except.error ⟨.TypeError, "as_result() requires one or more exception types"⟩) ∧
    (as_result Option.none = Except.ok [PySel.cls .Exception] ∧
     as_async_result Option.none = Except.ok [PySel.cls .Exception]) ∧
    (∀ e : Exc, pyIssubclass e.ty .Exception = true →
      excClauseMatches [PySel.cls .Exception] e = true) ∧
    (pyIssubclass .ValueError .Exception = true ∧
     pyIssubclass .SystemExit .Exception = false ∧
     pyIssubclass .KeyboardInterrupt .Exception = false) := by
  refine ⟨rfl, rfl, ?_, ⟨rfl, rfl⟩, ?_, by decide⟩
  · intro S x hx hbad
    have hall : S.all (fun e => isclass e && selIsBaseException e) = false := by
      rw [List.all_eq_false]
      exact ⟨x, hx, by simp [hbad]⟩
    constructor <;> simp [as_result, as_async_result, hall]
  · intro e he
    simp [excClauseMatches, he]

/-- Witness for C4: a tuple containing the non-class `5` is rejected by
both factories, and the default selector catches a `ValueError` instance. -/
theorem C4_decoration_time_validation_witness :
    as_result (some [PySel.nonClass (.int 5)])
      = Except.error ⟨.TypeError, "as_result() requires one or more exception types"⟩ ∧
    excClauseMatches [PySel.cls .Exception] ⟨.ValueError, 3⟩ = true :=
  ⟨(C4_decoration_time_validation.2.2.1 [PySel.nonClass (.int 5)]
      (PySel.nonClass (.int 5)) (List.mem_singleton.mpr rfl) (by decide)).1,
   C4_decoration_time_validation.2.2.2.2.1 ⟨.ValueError, 3⟩ (by decide)⟩

/-- Claim C9: the asynchronous wrapper satisfies the same contract as the
synchronous one — for the same selectors and the same awaited outcome, the
awaited value of the async wrapper is exactly what the sync wrapper would
produce (the callable being awaited rather than called is erased by the
embedding); and the two factories validate identically. -/
theorem C9_async_sync_equivalence {α : Type} (S : List PySel)
    (f : α → Awaitable) (args : α) :
    (async_wrapper S f args).awaited = wrapper S (fun a => (f a).awaited) args ∧
    (∀ opt, as_async_result opt = as_result opt) := by
  constructor
  · rfl
  · intro opt
    simp only [as_result, as_async_result]

/-- Claim C10: validation accepts every class deriving `BaseException`,
not only `Exception` subclasses — a tuple explicitly naming `SystemExit`
or `KeyboardInterrupt` passes both factories — and a wrapper so configured
converts a raised instance of that class into `Err`; the exclusion of
system-exiting classes is a property of the omitted-selectors default
only. -/
theorem C10_base_exception_selectors {α : Type} :
    (∀ c : PyClass, pyIssubclass c .BaseException = true →
      as_result (some [PySel.cls c]) = Except.ok [PySel.cls c] ∧
      as_async_result (some [PySel.cls c]) = Except.ok [PySel.cls c]) ∧
    (as_result (some [PySel.cls .SystemExit]) = Except.ok [PySel.cls .SystemExit] ∧
     as_async_result (some [PySel.cls .KeyboardInterrupt])
       = Except.ok [PySel.cls .KeyboardInterrupt]) ∧
    (∀ (f : α → Outcome) (args : α) (e : Exc), f args = .raise e →
      pyIssubclass e.ty .SystemExit = true →
      wrapper [PySel.cls .SystemExit] f args = Except.ok (.err (.exc e)) ∧
      (async_wrapper [PySel.cls .SystemExit]
        (fun a => ⟨f a⟩) args).awaited = Except.ok (.err (.exc e))) := by
  refine ⟨?_, ⟨?_, ?_⟩, ?_⟩
  · intro c hc
    constructor <;> simp [as_result, as_async_result, isclass, selIsBaseException, hc]
  · simp [as_result, isclass, selIsBaseException, pyIssubclass, PyClass.mro]
  · simp [as_async_result, isclass, selIsBaseException, pyIssubclass, PyClass.mro]
  · intro f args e hf he
    constructor <;> simp [wrapper, async_wrapper, hf, excClauseMatches, he]

/-- Witness for C10: `SystemExit` itself passes validation, and a wrapper
configured with `(SystemExit,)` converts a raised `SystemExit` instance
into `Err`. -/
theorem C10_base_exception_selectors_witness :
    as_result (some [PySel.cls .SystemExit]) = Except.ok [PySel.cls .SystemExit] ∧
    wrapper [PySel.cls .SystemExit]
      (fun _ : Unit => Outcome.raise ⟨.SystemExit, 9⟩) ()
      = Except.ok (.err (.exc ⟨.SystemExit, 9⟩)) :=
  ⟨((@C10_base_exception_selectors Unit).1 .SystemExit (by decide)).1,
   ((@C10_base_exception_selectors Unit).2.2
     (fun _ : Unit => Outcome.raise ⟨.SystemExit, 9⟩) () ⟨.SystemExit, 9⟩ rfl
     (by decide)).1⟩
